import Mathlib

/-!
Shallow embedding of the GPU visibility-modelling core of mwa_hyperdrive
(files `src/gpu/common.cuh`, `cuda/src_cuda/model.h` and the memory-lifecycle
translation unit holding `init_model`/`copy_vis`/`clear_vis`/`destroy`).

Modelling conventions:
* The C floating-point types (`FLOAT`, `float`, `double`) are modelled by `ℚ`,
  keeping every definition computable; the float/double narrowing conversion,
  which has no exact shallow model, is abstracted as an arbitrary function
  `ℚ → ℚ` wherever the source performs a `(float)` cast.
* C `int` is modelled by `Int`; sizes passed to the allocator are element
  counts (the C code multiplies the element count by `sizeof`).
* Device pointers are modelled by `Nat`, with `0` playing the role of `NULL`;
  device memory is an association list from addresses to typed buffers.
* `cudaSoftCheck` (defined in `memory.h`) logs a failed CUDA call and
  continues; each `cudaSoftCheck(cudaX(...))` call pair in the source is
  modelled by one `...Soft` state function that records the error in a log
  and otherwise proceeds.  Allocation failure is driven by an oracle
  (`failIdx`) carried in the GPU state.
-/

namespace Hyperdrive

/-- The `COMPLEX` type (`cuFloatComplex`/`cuDoubleComplex`): a pair of
`FLOAT` fields `x` (real) and `y` (imaginary). -/
structure Cplx where
  x : ℚ
  y : ℚ
deriving DecidableEq, Repr

/-- `MAKE_COMPLEX`. -/
def MAKE_COMPLEX (x y : ℚ) : Cplx := ⟨x, y⟩

/-- `operator+(COMPLEX, COMPLEX)` from `common.cuh`:
`MAKE_COMPLEX(a.x + b.x, a.y + b.y)`. -/
def cadd (a b : Cplx) : Cplx := MAKE_COMPLEX (a.x + b.x) (a.y + b.y)

/-- `operator*(COMPLEX, COMPLEX)` from `common.cuh`:
`MAKE_COMPLEX(a.x * b.x - a.y * b.y, a.x * b.y + a.y * b.x)`. -/
def cmul (a b : Cplx) : Cplx :=
  MAKE_COMPLEX (a.x * b.x - a.y * b.y) (a.x * b.y + a.y * b.x)

/-- `operator*=(COMPLEX &, COMPLEX)` from `common.cuh`: overwrites `a` with
`MAKE_COMPLEX(a.x * b.x - a.y * b.y, a.x * b.y + a.y * b.x)`; the whole
right-hand side is built before the single assignment to `a`, so both reads
of `a.x`/`a.y` see the pre-assignment value.  The returned value is the new
contents of `a`. -/
def cmulAssign (a b : Cplx) : Cplx :=
  MAKE_COMPLEX (a.x * b.x - a.y * b.y) (a.x * b.y + a.y * b.x)

/-- `operator*(COMPLEX, FLOAT)` from `common.cuh`. -/
def cmulReal (a : Cplx) (b : ℚ) : Cplx := MAKE_COMPLEX (a.x * b) (a.y * b)

/-- `operator+=(COMPLEX &, COMPLEX)` from `common.cuh`. -/
def caddAssign (a b : Cplx) : Cplx := ⟨a.x + b.x, a.y + b.y⟩

/-- `CUCONJ` (`cuConj`/`hipConj`): complex conjugation. -/
def cconj (a : Cplx) : Cplx := MAKE_COMPLEX a.x (-a.y)

/-- The `JONES` struct (`types.h`, as used in `common.cuh`): eight `FLOAT`
fields holding the real and imaginary parts of a 2x2 matrix. -/
structure Jones where
  j00_re : ℚ
  j00_im : ℚ
  j01_re : ℚ
  j01_im : ℚ
  j10_re : ℚ
  j10_im : ℚ
  j11_re : ℚ
  j11_im : ℚ
deriving DecidableEq, Repr

/-- `JonesF32` (`types.h`): the single-precision Jones matrix, eight `float`
fields.  The field values are modelled in `ℚ` like every other numeric. -/
structure JonesF32 where
  j00_re : ℚ
  j00_im : ℚ
  j01_re : ℚ
  j01_im : ℚ
  j10_re : ℚ
  j10_im : ℚ
  j11_re : ℚ
  j11_im : ℚ
deriving DecidableEq, Repr

/-- `JonesF64` (`types.h`): the double-precision Jones matrix, eight `double`
fields. -/
structure JonesF64 where
  j00_re : ℚ
  j00_im : ℚ
  j01_re : ℚ
  j01_im : ℚ
  j10_re : ℚ
  j10_im : ℚ
  j11_re : ℚ
  j11_im : ℚ
deriving DecidableEq, Repr

/-- The all-zero single-precision Jones matrix (the value a zero-filled
`JonesF32` holds, since all-zero bytes decode to `+0.0` floats). -/
def jonesF32Zero : JonesF32 := ⟨0, 0, 0, 0, 0, 0, 0, 0⟩

/-- The `JONES_C` struct from `common.cuh`: the same 2x2 matrix viewed as
four `COMPLEX` components. -/
structure JONES_C where
  j00 : Cplx
  j01 : Cplx
  j10 : Cplx
  j11 : Cplx
deriving DecidableEq, Repr

/-- The reinterpreting cast `(JONES_C *)j` used by `apply_beam`: the eight
`FLOAT` fields of a `JONES` are read as four `COMPLEX` values. -/
def jonesToC (j : Jones) : JONES_C :=
  ⟨⟨j.j00_re, j.j00_im⟩, ⟨j.j01_re, j.j01_im⟩, ⟨j.j10_re, j.j10_im⟩, ⟨j.j11_re, j.j11_im⟩⟩

/-- The inverse view: writing four `COMPLEX` values back into the eight
`FLOAT` fields of a `JONES`. -/
def cToJones (j : JONES_C) : Jones :=
  ⟨j.j00.x, j.j00.y, j.j01.x, j.j01.y, j.j10.x, j.j10.y, j.j11.x, j.j11.y⟩

/-- `operator+=(JONES &, JONES)` from `common.cuh`: field-wise addition.
The returned value is the new contents of `a`. -/
def jonesAddAssign (a b : Jones) : Jones :=
  ⟨a.j00_re + b.j00_re, a.j00_im + b.j00_im,
   a.j01_re + b.j01_re, a.j01_im + b.j01_im,
   a.j10_re + b.j10_re, a.j10_im + b.j10_im,
   a.j11_re + b.j11_re, a.j11_im + b.j11_im⟩

/-- `operator+=(JonesF32 &, JonesF64)` from `common.cuh`: each `double` field
of `b` is cast to `float` individually (`(float)b.j00_re` and so on) and then
added to the corresponding `float` field of `a`.  The `(float)` cast is the
abstracted narrowing function `narrow`.  The returned value is the new
contents of `a`. -/
def jonesF32AddAssignF64 (narrow : ℚ → ℚ) (a : JonesF32) (b : JonesF64) : JonesF32 :=
  ⟨a.j00_re + narrow b.j00_re, a.j00_im + narrow b.j00_im,
   a.j01_re + narrow b.j01_re, a.j01_im + narrow b.j01_im,
   a.j10_re + narrow b.j10_re, a.j10_im + narrow b.j10_im,
   a.j11_re + narrow b.j11_re, a.j11_im + narrow b.j11_im⟩

/-- Field-wise addition of two single-precision Jones matrices (the
`operator+=(JONES &, JONES)` pattern at the `JonesF32` type). -/
def jonesF32Add (a b : JonesF32) : JonesF32 :=
  ⟨a.j00_re + b.j00_re, a.j00_im + b.j00_im,
   a.j01_re + b.j01_re, a.j01_im + b.j01_im,
   a.j10_re + b.j10_re, a.j10_im + b.j10_im,
   a.j11_re + b.j11_re, a.j11_im + b.j11_im⟩

/-- Narrowing an entire double-precision Jones matrix to single precision,
one field at a time, with the abstracted `(float)` cast `narrow`.  This is
the spec-side description of C6: "narrows each of the eight double fields to
single precision individually". -/
def jonesF64NarrowToF32 (narrow : ℚ → ℚ) (b : JonesF64) : JonesF32 :=
  ⟨narrow b.j00_re, narrow b.j00_im, narrow b.j01_re, narrow b.j01_im,
   narrow b.j10_re, narrow b.j10_im, narrow b.j11_re, narrow b.j11_im⟩

/-- `apply_beam(const JONES *j1, JONES *j, const JONES *j2)` from
`common.cuh`.  The three matrices are reinterpreted as `JONES_C`, the
temporary `J1 . J` is formed, `J2^H` is built with `CUCONJ`, and the result
`(J1 . J) . J2^H` is written back into `j`.  The returned value is the new
contents of `j`. -/
def apply_beam (j1 j j2 : Jones) : Jones :=
  let j1c := jonesToC j1
  let jc := jonesToC j
  let j2c := jonesToC j2
  let temp : JONES_C :=
    ⟨cadd (cmul j1c.j00 jc.j00) (cmul j1c.j01 jc.j10),
     cadd (cmul j1c.j00 jc.j01) (cmul j1c.j01 jc.j11),
     cadd (cmul j1c.j10 jc.j00) (cmul j1c.j11 jc.j10),
     cadd (cmul j1c.j10 jc.j01) (cmul j1c.j11 jc.j11)⟩
  let j2h : JONES_C :=
    ⟨cconj j2c.j00, cconj j2c.j10, cconj j2c.j01, cconj j2c.j11⟩
  cToJones
    ⟨cadd (cmul temp.j00 j2h.j00) (cmul temp.j01 j2h.j10),
     cadd (cmul temp.j00 j2h.j01) (cmul temp.j01 j2h.j11),
     cadd (cmul temp.j10 j2h.j00) (cmul temp.j11 j2h.j10),
     cadd (cmul temp.j10 j2h.j01) (cmul temp.j11 j2h.j11)⟩

/-- The `UVW` struct (`types.h`): a baseline coordinate triple. -/
structure UVW where
  u : ℚ
  v : ℚ
  w : ℚ
deriving DecidableEq, Repr

/-- The `LMN` struct (`types.h`): direction cosines of a sky component. -/
structure LMN where
  l : ℚ
  m : ℚ
  n : ℚ
deriving DecidableEq, Repr

/-- The `GaussianParams` struct (`types.h`): major axis, minor axis and
position angle of a Gaussian or shapelet component. -/
structure GaussianParams where
  maj : ℚ
  minor : ℚ
  pa : ℚ
deriving DecidableEq, Repr

/-- The `ShapeletUV` struct (`types.h`): a w-free baseline coordinate pair
computed specifically for shapelet components. -/
structure ShapeletUV where
  u : ℚ
  v : ℚ
deriving DecidableEq, Repr

/-- The `ShapeletCoeff` struct (`types.h`): a basis-index pair and a weight. -/
structure ShapeletCoeff where
  n1 : ℚ
  n2 : ℚ
  value : ℚ
deriving DecidableEq, Repr

/-- Interpretation of a `COMPLEX` value in the mathematical complex field. -/
def Cplx.toComplex (z : Cplx) : ℂ := ⟨(z.x : ℝ), (z.y : ℝ)⟩

/-- Interpretation of a `JONES` matrix as an honest 2x2 complex matrix. -/
def Jones.toMatrix (j : Jones) : Matrix (Fin 2) (Fin 2) ℂ :=
  Matrix.of
    ![![Cplx.toComplex ⟨j.j00_re, j.j00_im⟩, Cplx.toComplex ⟨j.j01_re, j.j01_im⟩],
      ![Cplx.toComplex ⟨j.j10_re, j.j10_im⟩, Cplx.toComplex ⟨j.j11_re, j.j11_im⟩]]

/-! ## Device memory model -/

/-- A device buffer: either freshly allocated (uninitialised, with its
element count) or holding typed contents written by a host-to-device copy. -/
inductive DevBuf where
  | raw (size : Nat)
  | uvwBuf (data : List UVW)
  | floatBuf (data : List ℚ)
  | visBuf (data : List JonesF32)
deriving DecidableEq, Repr

/-- The error tokens that `cudaSoftCheck` can log. -/
inductive GpuErr where
  | mallocErr
  | memcpyErr
  | freeErr
deriving DecidableEq, Repr

/-- Device memory: an association list from device addresses to buffers
(most recent allocation first), the next fresh address (addresses start at 1
so that 0 is `NULL`), the number of `cudaMalloc` calls made so far, the
allocation-failure oracle (the indices of the `cudaMalloc` calls that fail),
and the `cudaSoftCheck` log (most recent first). -/
structure GpuMem where
  heap : List (Nat × DevBuf)
  next : Nat
  cnt : Nat
  failIdx : List Nat
  log : List GpuErr
deriving DecidableEq, Repr

/-- First-match lookup in the device heap. -/
def heapLookup : List (Nat × DevBuf) → Nat → Option DevBuf
  | [], _ => none
  | (q, b) :: t, p => if p = q then some b else heapLookup t p

/-- Overwrite the first entry with the given address, if present. -/
def heapUpdate : List (Nat × DevBuf) → Nat → DevBuf → List (Nat × DevBuf)
  | [], _, _ => []
  | (q, c) :: t, p, b => if p = q then (q, b) :: t else (q, c) :: heapUpdate t p b

/-- `cudaSoftCheck(cudaMalloc(&ptr, size))`: on success the pointer receives
a fresh address backed by an uninitialised buffer; on failure (decided by the
oracle) the pointer keeps its `NULL` initialisation and the error is logged.
Either way execution continues. -/
def cudaMallocSoft (g : GpuMem) (size : Nat) : Nat × GpuMem :=
  if g.cnt ∈ g.failIdx then
    (0, { g with cnt := g.cnt + 1, log := GpuErr.mallocErr :: g.log })
  else
    (g.next,
     { g with
       heap := (g.next, DevBuf.raw size) :: g.heap
       next := g.next + 1
       cnt := g.cnt + 1 })

/-- `cudaSoftCheck(cudaMemcpy(dst, src, size, cudaMemcpyHostToDevice))`:
writes the copied host contents `b` over the buffer at `dst`; copying to an
unallocated destination (in particular `NULL` after a failed allocation)
fails and is logged, and execution continues. -/
def cudaMemcpyHtoDSoft (g : GpuMem) (dst : Nat) (b : DevBuf) : GpuMem :=
  match heapLookup g.heap dst with
  | some _ => { g with heap := heapUpdate g.heap dst b }
  | none => { g with log := GpuErr.memcpyErr :: g.log }

/-- `cudaSoftCheck(cudaMemcpy(host, src, n * sizeof(JonesF32),
cudaMemcpyDeviceToHost))`: copies `n` Jones matrices from the device
visibility buffer at `src` into the front of the host buffer, leaving any
host tail beyond `n` elements in place; fails (and logs) if `src` does not
hold a copied visibility buffer. -/
def cudaMemcpyDtoHSoft (g : GpuMem) (src : Nat) (n : Nat) (host : List JonesF32) :
    GpuMem × List JonesF32 :=
  match heapLookup g.heap src with
  | some (DevBuf.visBuf data) => (g, data.take n ++ host.drop n)
  | _ => ({ g with log := GpuErr.memcpyErr :: g.log }, host)

/-- `cudaMemset(p, 0, n * sizeof(JonesF32))` as used by `clear_vis`: writes
`n` all-zero Jones matrices over the buffer at `p` (all-zero bytes decode to
`+0.0` in every float field).  The source discards the return status, so an
unallocated `p` produces no effect and no log entry. -/
def cudaMemsetVisZero (g : GpuMem) (p : Nat) (n : Nat) : GpuMem :=
  match heapLookup g.heap p with
  | some _ =>
      { g with heap := heapUpdate g.heap p (DevBuf.visBuf (List.replicate n jonesF32Zero)) }
  | none => g

/-- `cudaSoftCheck(cudaFree(p))`: freeing `NULL` is a no-op; freeing an
allocated address removes its buffer; freeing an unallocated non-`NULL`
address fails and is logged. -/
def cudaFreeSoft (g : GpuMem) (p : Nat) : GpuMem :=
  if p = 0 then g
  else
    match heapLookup g.heap p with
    | some _ => { g with heap := g.heap.filter (fun e => decide (e.1 ≠ p)) }
    | none => { g with log := GpuErr.freeErr :: g.log }

/-- The whole machine state seen by the lifecycle functions: device memory
plus the one host visibility buffer (the array the caller hands to
`init_model` as `vis` and that `copy_vis` writes back into). -/
structure ModelState where
  gpu : GpuMem
  hostVis : List JonesF32
deriving DecidableEq, Repr

/-- The `Addresses` struct returned by `init_model`: counts, shapelet-basis
shape constants, the four device buffers the context owns, the externally
supplied device pointers, and the host visibility pointer. -/
structure Addresses where
  num_freqs : Int
  num_vis : Int
  num_tiles : Int
  sbf_l : Int
  sbf_n : Int
  sbf_c : ℚ
  sbf_dx : ℚ
  d_uvws : Nat
  d_freqs : Nat
  d_shapelet_basis_values : Nat
  d_fee_coeffs : Nat
  num_fee_beam_coeffs : Int
  num_unique_fee_tiles : Int
  num_unique_fee_freqs : Int
  d_beam_jones_map : Nat
  d_beam_norm_jones : Nat
  d_vis : Nat
  host_vis : Nat
deriving DecidableEq, Repr

/-- `init_model` from the memory translation unit: four
`cudaSoftCheck(cudaMalloc(...))` / `cudaSoftCheck(cudaMemcpy(...))` pairs
(UVWs, frequencies, shapelet basis values, visibilities), then the
`Addresses` struct is built and returned unconditionally.  `vis_ptr` is the
host visibility pointer (the C `vis` argument); its pointee contents are the
state's `hostVis` buffer.  Sizes are element counts: `num_baselines`,
`num_freqs`, `sbf_l * sbf_n` and `num_vis = num_baselines * num_freqs`. -/
def init_model (num_baselines num_freqs num_tiles sbf_l sbf_n : Int) (sbf_c sbf_dx : ℚ)
    (uvws : List UVW) (freqs : List ℚ) (shapelet_basis_values : List ℚ)
    (d_fee_coeffs : Nat) (num_fee_beam_coeffs num_unique_fee_tiles num_unique_fee_freqs : Int)
    (d_beam_jones_map d_beam_norm_jones : Nat) (vis_ptr : Nat)
    (s : ModelState) : Addresses × ModelState :=
  let r1 := cudaMallocSoft s.gpu num_baselines.toNat
  let d_uvws := r1.1
  let g1 := cudaMemcpyHtoDSoft r1.2 d_uvws (DevBuf.uvwBuf (uvws.take num_baselines.toNat))
  let r2 := cudaMallocSoft g1 num_freqs.toNat
  let d_freqs := r2.1
  let g2 := cudaMemcpyHtoDSoft r2.2 d_freqs (DevBuf.floatBuf (freqs.take num_freqs.toNat))
  let r3 := cudaMallocSoft g2 (sbf_l * sbf_n).toNat
  let d_shapelet_basis_values := r3.1
  let g3 := cudaMemcpyHtoDSoft r3.2 d_shapelet_basis_values
    (DevBuf.floatBuf (shapelet_basis_values.take (sbf_l * sbf_n).toNat))
  let num_vis : Int := num_baselines * num_freqs
  let r4 := cudaMallocSoft g3 num_vis.toNat
  let d_vis := r4.1
  let g4 := cudaMemcpyHtoDSoft r4.2 d_vis (DevBuf.visBuf (s.hostVis.take num_vis.toNat))
  (⟨num_freqs, num_vis, num_tiles, sbf_l, sbf_n, sbf_c, sbf_dx,
    d_uvws, d_freqs, d_shapelet_basis_values,
    d_fee_coeffs, num_fee_beam_coeffs, num_unique_fee_tiles, num_unique_fee_freqs,
    d_beam_jones_map, d_beam_norm_jones, d_vis, vis_ptr⟩,
   { s with gpu := g4 })

/-- `copy_vis(const Addresses *a)`: one checked device-to-host copy of
`a->num_vis` Jones matrices from `a->d_vis` into the host buffer `a->host_vis`
supplied at creation.  The context is taken through a `const` pointer and is
not modified. -/
def copy_vis (a : Addresses) (s : ModelState) : ModelState :=
  let r := cudaMemcpyDtoHSoft s.gpu a.d_vis a.num_vis.toNat s.hostVis
  { gpu := r.1, hostVis := r.2 }

/-- `clear_vis(Addresses *a)`: one unchecked `cudaMemset` zero-filling
`a->num_vis` Jones matrices at `a->d_vis`.  The struct behind the pointer is
only read, so the (unchanged) context is returned alongside the state. -/
def clear_vis (a : Addresses) (s : ModelState) : Addresses × ModelState :=
  (a, { s with gpu := cudaMemsetVisZero s.gpu a.d_vis a.num_vis.toNat })

/-- `destroy(Addresses *a)`: four checked `cudaFree` calls on `d_uvws`,
`d_freqs`, `d_shapelet_basis_values` and `d_vis`, in that order.  The struct
behind the pointer is only read, so the (unchanged) context is returned
alongside the state. -/
def destroy (a : Addresses) (s : ModelState) : Addresses × ModelState :=
  let g1 := cudaFreeSoft s.gpu a.d_uvws
  let g2 := cudaFreeSoft g1 a.d_freqs
  let g3 := cudaFreeSoft g2 a.d_shapelet_basis_values
  let g4 := cudaFreeSoft g3 a.d_vis
  (a, { s with gpu := g4 })

/-! ## Modelling kernels (declared in `cuda/src_cuda/model.h`) -/

/-- The shared memory effect of a modelling kernel on the context: read the
device visibility buffer at `a.d_vis`, replace its contents with the
accumulated contents `f old`, and report status 0; if the context's
visibility buffer is not an allocated, copied visibility buffer the device
call fails and a non-zero status is returned with the state unchanged. -/
def kernelWriteVis (a : Addresses) (s : ModelState) (f : List JonesF32 → List JonesF32) :
    Int × ModelState :=
  match heapLookup s.gpu.heap a.d_vis with
  | some (DevBuf.visBuf data) =>
      (0, { s with gpu := { s.gpu with heap := heapUpdate s.gpu.heap a.d_vis (DevBuf.visBuf (f data)) } })
  | _ => (1, s)

/-- Modelled from the spec: the body of `model_points` lives in `model.cu`,
which is not under `src/` (`cuda/src_cuda/model.h` only declares it).  Per the
spec (sections 4.4 and 3), the kernel reads the context's device buffers and
the per-component inputs and accumulates each component's phase-rotated flux
Jones into the device visibility buffer, which is the only array it mutates;
it returns a status, non-zero on a device error.  The per-cell arithmetic
(phase, flux, beam) is the undisclosed numeric core and is abstracted as the
parameter `accum` from the kernel inputs and the old buffer contents to the
new contents. -/
def model_points
    (accum : List LMN → List JonesF64 → Addresses → GpuMem → List JonesF32 → List JonesF32)
    (num_points : Nat) (point_lmns : List LMN) (point_fds : List JonesF64)
    (a : Addresses) (s : ModelState) : Int × ModelState :=
  kernelWriteVis a s (accum (point_lmns.take num_points) point_fds a s.gpu)

/-- Modelled from the spec: the body of `model_gaussians` lives in `model.cu`,
which is not under `src/`.  Same memory contract as `model_points` (spec
section 4.5), with the Gaussian shape parameters as an extra read-only input;
the context is passed by value, so the caller's struct cannot change. -/
def model_gaussians
    (accum : List LMN → List JonesF64 → List GaussianParams → Addresses → GpuMem →
      List JonesF32 → List JonesF32)
    (num_gaussians : Nat) (gaussian_lmns : List LMN) (gaussian_fds : List JonesF64)
    (gaussian_params : List GaussianParams) (a : Addresses) (s : ModelState) :
    Int × ModelState :=
  kernelWriteVis a s
    (accum (gaussian_lmns.take num_gaussians) gaussian_fds gaussian_params a s.gpu)

/-- Modelled from the spec: the body of `model_shapelets` lives in `model.cu`,
which is not under `src/`.  Same memory contract as `model_points` (spec
section 4.6), with the shapelet UVs, ragged coefficient list and per-component
coefficient counts as extra read-only inputs; the context is passed by value. -/
def model_shapelets
    (accum : List LMN → List JonesF64 → List GaussianParams → List ShapeletUV →
      List ShapeletCoeff → List Nat → Addresses → GpuMem → List JonesF32 → List JonesF32)
    (num_shapelets : Nat) (shapelet_lmns : List LMN) (shapelet_fds : List JonesF64)
    (gaussian_params : List GaussianParams) (shapelet_uvs : List ShapeletUV)
    (shapelet_coeffs : List ShapeletCoeff) (num_shapelet_coeffs : List Nat)
    (a : Addresses) (s : ModelState) : Int × ModelState :=
  kernelWriteVis a s
    (accum (shapelet_lmns.take num_shapelets) shapelet_fds gaussian_params shapelet_uvs
      shapelet_coeffs num_shapelet_coeffs a s.gpu)

/-- The caller-supplied host arrays of `model_timestep`, in the order of its
parameter list in `cuda/src_cuda/model.h`: the per-baseline UVWs, the
frequencies, the LMNs / flux Jones / shape parameters of each component
type, the shapelet UVs, the flattened ragged coefficient list with its
per-component counts, the shapelet basis table, and the visibility buffer
`vis` that the documentation singles out as the only argument that should be
mutated. -/
structure HostArrays where
  uvws : List UVW
  freqs : List ℚ
  point_lmns : List LMN
  point_fds : List JonesF64
  gaussian_lmns : List LMN
  gaussian_fds : List JonesF64
  gaussian_gaussian_params : List GaussianParams
  shapelet_lmns : List LMN
  shapelet_fds : List JonesF64
  shapelet_gaussian_params : List GaussianParams
  shapelet_uvs : List ShapeletUV
  shapelet_coeffs : List ShapeletCoeff
  num_shapelet_coeffs : List Nat
  shapelet_basis_values : List ℚ
  vis : List JonesF32
deriving DecidableEq, Repr

/-- Modelled from the spec: the body of `model_timestep` lives in `model.cu`,
which is not under `src/` (`cuda/src_cuda/model.h` only declares and
documents it).  Per the spec (sections 2 and 6) it is the aggregate entry
point: given the host-resident arrays, the component counts and the
shapelet-basis shape constants, it invokes the point, Gaussian and shapelet
kernels in sequence against the one visibility buffer and returns a combined
status; per its header documentation, `vis` "is the only argument that
should be mutated".  Each kernel's undisclosed numeric core is abstracted as
an accumulation function from the component counts, the (read-only) host
arrays and the current visibility contents to the new contents; the
undisclosed device-status combination is not modelled, only the memory
contract. -/
def model_timestep
    (accumP accumG : Nat → Nat → Nat → HostArrays → List JonesF32 → List JonesF32)
    (accumS : Nat → Nat → Nat → Nat → Nat → ℚ → ℚ → HostArrays →
      List JonesF32 → List JonesF32)
    (num_baselines num_freqs num_points num_gaussians num_shapelets : Nat)
    (sbf_l sbf_n : Nat) (sbf_c sbf_dx : ℚ) (h : HostArrays) : Int × HostArrays :=
  let v1 := accumP num_baselines num_freqs num_points h h.vis
  let v2 := accumG num_baselines num_freqs num_gaussians h v1
  let v3 := accumS num_baselines num_freqs num_shapelets sbf_l sbf_n sbf_c sbf_dx h v2
  (0, { h with vis := v3 })

/-! ## Heap lemmas -/

theorem heapLookup_update_ne (h : List (Nat × DevBuf)) (p q : Nat) (b : DevBuf)
    (hne : q ≠ p) : heapLookup (heapUpdate h p b) q = heapLookup h q := by
  induction h with
  | nil => rfl
  | cons e t ih =>
    obtain ⟨k, c⟩ := e
    by_cases hk : p = k
    · subst hk
      simp [heapUpdate, heapLookup, hne]
    · simp [heapUpdate, heapLookup, hk]
      split <;> simp_all

theorem heapLookup_update_self (h : List (Nat × DevBuf)) (p : Nat) (b c : DevBuf)
    (hp : heapLookup h p = some c) :
    heapLookup (heapUpdate h p b) p = some b := by
  induction h with
  | nil => simp [heapLookup] at hp
  | cons e t ih =>
    obtain ⟨k, d⟩ := e
    by_cases hk : p = k
    · subst hk
      simp [heapUpdate, heapLookup]
    · simp [heapUpdate, heapLookup, hk] at hp ⊢
      exact ih hp

theorem heapUpdate_update (h : List (Nat × DevBuf)) (p : Nat) (b c : DevBuf) :
    heapUpdate (heapUpdate h p b) p c = heapUpdate h p c := by
  induction h with
  | nil => rfl
  | cons e t ih =>
    obtain ⟨k, d⟩ := e
    by_cases hk : p = k
    · subst hk
      simp [heapUpdate]
    · simp [heapUpdate, hk, ih]

theorem heapLookup_update_isSome (h : List (Nat × DevBuf)) (p q : Nat) (b : DevBuf) :
    (heapLookup (heapUpdate h p b) q).isSome = (heapLookup h q).isSome := by
  induction h with
  | nil => rfl
  | cons e t ih =>
    obtain ⟨k, c⟩ := e
    by_cases hk : p = k
    · subst hk
      by_cases hq : q = p <;> simp [heapUpdate, heapLookup, hq]
    · by_cases hq : q = k <;> simp [heapUpdate, heapLookup, hk, hq, ih]

theorem heapLookup_filter_ne (h : List (Nat × DevBuf)) (p q : Nat) :
    heapLookup (h.filter (fun e => decide (e.1 ≠ p))) q =
      if q = p then none else heapLookup h q := by
  induction h with
  | nil => simp [heapLookup]
  | cons e t ih =>
    obtain ⟨k, c⟩ := e
    rw [List.filter_cons]
    by_cases hk : k = p
    · subst hk
      have hf : decide ((k, c).1 ≠ k) = false := by simp
      rw [hf]
      simp only [Bool.false_eq_true, if_false]
      rw [ih]
      by_cases hq : q = k
      · simp [hq]
      · simp [heapLookup, hq]
    · have hf : decide ((k, c).1 ≠ p) = true := by simp [hk]
      rw [hf]
      simp only [if_true]
      by_cases hq : q = k
      · subst hq
        have hqp : ¬q = p := hk
        simp [heapLookup, hqp]
      · simp only [heapLookup, hq, if_neg, ih]
        simp [hq]

theorem heapLookup_free (g : GpuMem) (p q : Nat) :
    heapLookup (cudaFreeSoft g p).heap q =
      if q = p ∧ q ≠ 0 then none else heapLookup g.heap q := by
  unfold cudaFreeSoft
  by_cases hp : p = 0
  · subst hp
    rw [if_pos rfl]
    by_cases hq : q = 0 <;> simp [hq]
  · rw [if_neg hp]
    cases hl : heapLookup g.heap p with
    | some b =>
        simp only [hl]
        rw [heapLookup_filter_ne]
        by_cases hq : q = p
        · subst hq
          simp [hp]
        · simp [hq]
    | none =>
        simp only [hl]
        by_cases hq : q = p
        · subst hq
          simp [hp, hl]
        · simp [hq]

/-- The one-sided evolution a `cudaSoftCheck`-style call performs on device
memory: no allocated buffer disappears, and the error log only grows. -/
def gpuEvolves (g g' : GpuMem) : Prop :=
  (∀ p, (heapLookup g.heap p).isSome → (heapLookup g'.heap p).isSome) ∧
    List.IsSuffix g.log g'.log

theorem gpuEvolves_refl (g : GpuMem) : gpuEvolves g g :=
  ⟨fun _ hp => hp, List.suffix_refl _⟩

theorem gpuEvolves_trans {g1 g2 g3 : GpuMem} (h12 : gpuEvolves g1 g2)
    (h23 : gpuEvolves g2 g3) : gpuEvolves g1 g3 :=
  ⟨fun p hp => h23.1 p (h12.1 p hp), h12.2.trans h23.2⟩

theorem gpuEvolves_malloc (g : GpuMem) (n : Nat) :
    gpuEvolves g (cudaMallocSoft g n).2 := by
  unfold cudaMallocSoft
  split
  · exact ⟨fun p hp => hp, List.suffix_cons _ _⟩
  · refine ⟨fun p hp => ?_, List.suffix_refl _⟩
    by_cases hq : p = g.next <;> simp [heapLookup, hq, hp]

theorem gpuEvolves_memcpyHtoD (g : GpuMem) (dst : Nat) (b : DevBuf) :
    gpuEvolves g (cudaMemcpyHtoDSoft g dst b) := by
  unfold cudaMemcpyHtoDSoft
  split
  · exact ⟨fun p hp => by simpa [heapLookup_update_isSome] using hp, List.suffix_refl _⟩
  · exact ⟨fun p hp => hp, List.suffix_cons _ _⟩

theorem cudaMemsetVisZero_lookup (g : GpuMem) (p n : Nat) (c : DevBuf)
    (h : heapLookup g.heap p = some c) :
    heapLookup (cudaMemsetVisZero g p n).heap p =
      some (DevBuf.visBuf (List.replicate n jonesF32Zero)) := by
  unfold cudaMemsetVisZero
  rw [h]
  exact heapLookup_update_self _ _ _ _ h

theorem cudaMemsetVisZero_idem (g : GpuMem) (p n : Nat) :
    cudaMemsetVisZero (cudaMemsetVisZero g p n) p n = cudaMemsetVisZero g p n := by
  unfold cudaMemsetVisZero
  cases h : heapLookup g.heap p with
  | none => simp [h]
  | some c =>
      have h2 : heapLookup (heapUpdate g.heap p (DevBuf.visBuf (List.replicate n jonesF32Zero))) p
          = some (DevBuf.visBuf (List.replicate n jonesF32Zero)) :=
        heapLookup_update_self _ _ _ _ h
      simp [h, h2, heapUpdate_update]

/-! ## Claim theorems -/

/-- C10: the in-place complex multiplication `operator*=` agrees with the
pure complex multiplication `operator*`: executing `a *= b` leaves `a` equal
to the value of `a * b` computed before the assignment (the right-hand side
is built in full before the single store to `a`, so no partially-updated
field is read). -/
theorem cmulAssign_agrees_with_cmul (a b : Cplx) : cmulAssign a b = cmul a b := rfl

/-- C6: accumulating a double-precision Jones matrix into a single-precision
one (`operator+=(JonesF32 &, JonesF64)`) narrows each of the eight double
fields individually with the `(float)` cast and then adds the narrowed value
to the corresponding single-precision field; this holds for an arbitrary
narrowing function, so no narrowing or widening can occur at any other step
of the per-field accumulation. -/
theorem jonesF32_accumulation_narrows_per_field (narrow : ℚ → ℚ) (a : JonesF32)
    (b : JonesF64) :
    jonesF32AddAssignF64 narrow a b = jonesF32Add a (jonesF64NarrowToF32 narrow b) := rfl

/-- C5: the counts stored in a context are fixed at creation: `init_model`
sets `num_vis` to `num_baselines * num_freqs` and stores the caller's
`num_freqs`, `num_tiles`, `sbf_l` and `sbf_n`; `clear_vis` and `destroy`
return the context unchanged through their non-`const` pointer, and
`copy_vis` and the modelling kernels take the context through a `const`
pointer or by value, so no subsequent operation changes any count. -/
theorem context_counts_fixed_at_creation
    (nb nf nt sl sn : Int) (c dx : ℚ) (uvws : List UVW) (freqs sbvs : List ℚ)
    (dfc : Nat) (nfbc nuft nuff : Int) (bjm bnj vp : Nat) (s : ModelState)
    (a : Addresses) (s' : ModelState) :
    ((init_model nb nf nt sl sn c dx uvws freqs sbvs dfc nfbc nuft nuff bjm bnj vp s).1.num_freqs = nf
      ∧ (init_model nb nf nt sl sn c dx uvws freqs sbvs dfc nfbc nuft nuff bjm bnj vp s).1.num_vis = nb * nf
      ∧ (init_model nb nf nt sl sn c dx uvws freqs sbvs dfc nfbc nuft nuff bjm bnj vp s).1.num_tiles = nt
      ∧ (init_model nb nf nt sl sn c dx uvws freqs sbvs dfc nfbc nuft nuff bjm bnj vp s).1.sbf_l = sl
      ∧ (init_model nb nf nt sl sn c dx uvws freqs sbvs dfc nfbc nuft nuff bjm bnj vp s).1.sbf_n = sn)
    ∧ (clear_vis a s').1 = a ∧ (destroy a s').1 = a :=
  ⟨⟨rfl, rfl, rfl, rfl, rfl⟩, rfl, rfl⟩

/-- C4: after `clear_vis`, the device visibility buffer holds exactly
`num_vis` Jones matrices, each zero in all eight fields, and `clear_vis` is
idempotent: a second call leaves the state of the first call unchanged. -/
theorem clear_vis_zero_fills_and_is_idempotent (a : Addresses) (s : ModelState)
    (c : DevBuf) (h : heapLookup s.gpu.heap a.d_vis = some c) :
    (∃ d, heapLookup (clear_vis a s).2.gpu.heap a.d_vis = some (DevBuf.visBuf d)
      ∧ d.length = a.num_vis.toNat ∧ ∀ x ∈ d, x = jonesF32Zero)
    ∧ clear_vis a (clear_vis a s).2 = clear_vis a s := by
  constructor
  · refine ⟨List.replicate a.num_vis.toNat jonesF32Zero, ?_, List.length_replicate _ _, ?_⟩
    · exact cudaMemsetVisZero_lookup s.gpu a.d_vis a.num_vis.toNat c h
    · intro x hx
      exact List.eq_of_mem_replicate hx
  · show (a, _) = (a, _)
    unfold clear_vis
    rw [show ((a, { s with gpu := cudaMemsetVisZero s.gpu a.d_vis a.num_vis.toNat }).2 : ModelState)
      = { s with gpu := cudaMemsetVisZero s.gpu a.d_vis a.num_vis.toNat } from rfl]
    rw [show ({ s with gpu := cudaMemsetVisZero s.gpu a.d_vis a.num_vis.toNat } : ModelState).gpu
      = cudaMemsetVisZero s.gpu a.d_vis a.num_vis.toNat from rfl]
    rw [cudaMemsetVisZero_idem]

/-- Context and state used to witness the `clear_vis` theorem. -/
def c4ctx : Addresses := ⟨2, 2, 1, 1, 1, 0, 0, 5, 6, 7, 0, 0, 0, 0, 0, 0, 1, 9⟩

/-- State used to witness the `clear_vis` theorem: the visibility buffer at
device address 1 holds two nonzero Jones matrices. -/
def c4st : ModelState :=
  ⟨⟨[(1, DevBuf.visBuf [⟨1, 0, 0, 0, 0, 0, 0, 0⟩, ⟨0, 2, 0, 0, 0, 0, 0, 0⟩])], 2, 0, [], []⟩, []⟩

theorem clear_vis_zero_fills_witness :
    (∃ d, heapLookup (clear_vis c4ctx c4st).2.gpu.heap c4ctx.d_vis = some (DevBuf.visBuf d)
      ∧ d.length = c4ctx.num_vis.toNat ∧ ∀ x ∈ d, x = jonesF32Zero)
    ∧ clear_vis c4ctx (clear_vis c4ctx c4st).2 = clear_vis c4ctx c4st :=
  clear_vis_zero_fills_and_is_idempotent c4ctx c4st
    (DevBuf.visBuf [⟨1, 0, 0, 0, 0, 0, 0, 0⟩, ⟨0, 2, 0, 0, 0, 0, 0, 0⟩]) rfl

/-- C9: `destroy` frees exactly the four device buffers allocated by
`init_model` (`d_uvws`, `d_freqs`, `d_shapelet_basis_values`, `d_vis`):
after it, a non-`NULL` address among those four is no longer allocated, every
other address (in particular the externally supplied `d_fee_coeffs`,
`d_beam_jones_map` and `d_beam_norm_jones`) still maps to the same buffer,
the host visibility buffer is untouched, and the context struct is
unchanged. -/
theorem destroy_frees_exactly_context_buffers (a : Addresses) (s : ModelState) (q : Nat) :
    (heapLookup (destroy a s).2.gpu.heap q =
      if (q = a.d_uvws ∨ q = a.d_freqs ∨ q = a.d_shapelet_basis_values ∨ q = a.d_vis) ∧ q ≠ 0
      then none else heapLookup s.gpu.heap q)
    ∧ (destroy a s).2.hostVis = s.hostVis ∧ (destroy a s).1 = a := by
  refine ⟨?_, rfl, rfl⟩
  show heapLookup (cudaFreeSoft (cudaFreeSoft (cudaFreeSoft (cudaFreeSoft s.gpu a.d_uvws)
    a.d_freqs) a.d_shapelet_basis_values) a.d_vis).heap q = _
  rw [heapLookup_free, heapLookup_free, heapLookup_free, heapLookup_free]
  split_ifs <;> tauto

/-- Frame property of the shared kernel memory effect: only the buffer at
`a.d_vis` can change, and the host visibility buffer never does. -/
theorem kernelWriteVis_frame (a : Addresses) (s : ModelState)
    (f : List JonesF32 → List JonesF32) :
    (∀ q, q = a.d_vis ∨
      heapLookup (kernelWriteVis a s f).2.gpu.heap q = heapLookup s.gpu.heap q)
    ∧ (kernelWriteVis a s f).2.hostVis = s.hostVis := by
  unfold kernelWriteVis
  cases h : heapLookup s.gpu.heap a.d_vis with
  | none => simp [h]
  | some b =>
      cases b with
      | visBuf data =>
          simp only [h]
          refine ⟨fun q => ?_, by trivial⟩
          by_cases hq : q = a.d_vis
          · exact Or.inl hq
          · exact Or.inr (heapLookup_update_ne _ _ _ _ hq)
      | raw n => simp [h]
      | uvwBuf d => simp [h]
      | floatBuf d => simp [h]

/-- C7: the visibility buffer is the only caller-supplied array any
modelling entry point mutates.  For `model_points`, `model_gaussians` and
`model_shapelets`, every device buffer other than the one at `d_vis` (UVWs,
frequencies, shapelet basis table, and any externally owned beam buffer) is
unchanged after the call, and the host-side arrays (including the host
visibility buffer) are unchanged.  For `model_timestep`, every
caller-supplied host array other than `vis` — UVWs, frequencies, LMNs, flux
Jones, Gaussian parameters, shapelet UVs, coefficients, counts and basis
table — is unchanged after the call.  This holds for every possible
accumulation function. -/
theorem modelling_kernels_mutate_only_vis
    (accumP : List LMN → List JonesF64 → Addresses → GpuMem → List JonesF32 → List JonesF32)
    (accumG : List LMN → List JonesF64 → List GaussianParams → Addresses → GpuMem →
      List JonesF32 → List JonesF32)
    (accumS : List LMN → List JonesF64 → List GaussianParams → List ShapeletUV →
      List ShapeletCoeff → List Nat → Addresses → GpuMem → List JonesF32 → List JonesF32)
    (tsP tsG : Nat → Nat → Nat → HostArrays → List JonesF32 → List JonesF32)
    (tsS : Nat → Nat → Nat → Nat → Nat → ℚ → ℚ → HostArrays → List JonesF32 → List JonesF32)
    (np : Nat) (plmns : List LMN) (pfds : List JonesF64)
    (ng : Nat) (glmns : List LMN) (gfds : List JonesF64) (gps : List GaussianParams)
    (nsh : Nat) (slmns : List LMN) (sfds : List JonesF64) (sgps : List GaussianParams)
    (suvs : List ShapeletUV) (scoeffs : List ShapeletCoeff) (sncoeffs : List Nat)
    (a : Addresses) (s : ModelState)
    (nbl nfr : Nat) (sbl sbn : Nat) (sc sdx : ℚ) (harr : HostArrays) :
    ((∀ q, q = a.d_vis ∨
        heapLookup (model_points accumP np plmns pfds a s).2.gpu.heap q = heapLookup s.gpu.heap q)
      ∧ (model_points accumP np plmns pfds a s).2.hostVis = s.hostVis)
    ∧ ((∀ q, q = a.d_vis ∨
        heapLookup (model_gaussians accumG ng glmns gfds gps a s).2.gpu.heap q
          = heapLookup s.gpu.heap q)
      ∧ (model_gaussians accumG ng glmns gfds gps a s).2.hostVis = s.hostVis)
    ∧ ((∀ q, q = a.d_vis ∨
        heapLookup (model_shapelets accumS nsh slmns sfds sgps suvs scoeffs sncoeffs a s).2.gpu.heap q
          = heapLookup s.gpu.heap q)
      ∧ (model_shapelets accumS nsh slmns sfds sgps suvs scoeffs sncoeffs a s).2.hostVis = s.hostVis)
    ∧ ((model_timestep tsP tsG tsS nbl nfr np ng nsh sbl sbn sc sdx harr).2.uvws = harr.uvws
      ∧ (model_timestep tsP tsG tsS nbl nfr np ng nsh sbl sbn sc sdx harr).2.freqs = harr.freqs
      ∧ (model_timestep tsP tsG tsS nbl nfr np ng nsh sbl sbn sc sdx harr).2.point_lmns
          = harr.point_lmns
      ∧ (model_timestep tsP tsG tsS nbl nfr np ng nsh sbl sbn sc sdx harr).2.point_fds
          = harr.point_fds
      ∧ (model_timestep tsP tsG tsS nbl nfr np ng nsh sbl sbn sc sdx harr).2.gaussian_lmns
          = harr.gaussian_lmns
      ∧ (model_timestep tsP tsG tsS nbl nfr np ng nsh sbl sbn sc sdx harr).2.gaussian_fds
          = harr.gaussian_fds
      ∧ (model_timestep tsP tsG tsS nbl nfr np ng nsh sbl sbn sc sdx harr).2.gaussian_gaussian_params
          = harr.gaussian_gaussian_params
      ∧ (model_timestep tsP tsG tsS nbl nfr np ng nsh sbl sbn sc sdx harr).2.shapelet_lmns
          = harr.shapelet_lmns
      ∧ (model_timestep tsP tsG tsS nbl nfr np ng nsh sbl sbn sc sdx harr).2.shapelet_fds
          = harr.shapelet_fds
      ∧ (model_timestep tsP tsG tsS nbl nfr np ng nsh sbl sbn sc sdx harr).2.shapelet_gaussian_params
          = harr.shapelet_gaussian_params
      ∧ (model_timestep tsP tsG tsS nbl nfr np ng nsh sbl sbn sc sdx harr).2.shapelet_uvs
          = harr.shapelet_uvs
      ∧ (model_timestep tsP tsG tsS nbl nfr np ng nsh sbl sbn sc sdx harr).2.shapelet_coeffs
          = harr.shapelet_coeffs
      ∧ (model_timestep tsP tsG tsS nbl nfr np ng nsh sbl sbn sc sdx harr).2.num_shapelet_coeffs
          = harr.num_shapelet_coeffs
      ∧ (model_timestep tsP tsG tsS nbl nfr np ng nsh sbl sbn sc sdx harr).2.shapelet_basis_values
          = harr.shapelet_basis_values) :=
  ⟨kernelWriteVis_frame _ _ _, kernelWriteVis_frame _ _ _, kernelWriteVis_frame _ _ _,
   rfl, rfl, rfl, rfl, rfl, rfl, rfl, rfl, rfl, rfl, rfl, rfl, rfl, rfl⟩

/-- C8: `copy_vis` never modifies the device visibility buffer (the whole
device heap is unchanged), and calling it twice on the same context without
an intervening `clear_vis` or modelling kernel leaves the host buffer after
the second call identical to what it was after the first call. -/
theorem copy_vis_preserves_device_and_is_idempotent (a : Addresses) (s : ModelState)
    (data : List JonesF32)
    (h1 : heapLookup s.gpu.heap a.d_vis = some (DevBuf.visBuf data))
    (h2 : a.num_vis.toNat ≤ data.length) :
    (copy_vis a s).gpu.heap = s.gpu.heap
    ∧ (copy_vis a (copy_vis a s)).hostVis = (copy_vis a s).hostVis := by
  have key : ∀ B : List JonesF32,
      (data.take a.num_vis.toNat ++ B).drop a.num_vis.toNat = B := by
    intro B
    have hlen : (data.take a.num_vis.toNat).length = a.num_vis.toNat := by
      rw [List.length_take]
      exact min_eq_left h2
    exact List.drop_left' hlen
  unfold copy_vis cudaMemcpyDtoHSoft
  simp only [h1]
  refine ⟨by trivial, ?_⟩
  rw [key]

/-- Context used to witness the `copy_vis` theorem. -/
def c8ctx : Addresses := ⟨1, 1, 1, 1, 1, 0, 0, 5, 6, 7, 0, 0, 0, 0, 0, 0, 1, 9⟩

/-- State used to witness the `copy_vis` theorem: the device visibility
buffer holds one nonzero Jones matrix, the host buffer a different one. -/
def c8st : ModelState :=
  ⟨⟨[(1, DevBuf.visBuf [⟨3, 0, 0, 0, 0, 0, 0, 0⟩])], 2, 0, [], []⟩,
   [⟨0, 0, 0, 0, 0, 0, 0, 4⟩]⟩

theorem copy_vis_idempotent_witness :
    (copy_vis c8ctx c8st).gpu.heap = c8st.gpu.heap
    ∧ (copy_vis c8ctx (copy_vis c8ctx c8st)).hostVis = (copy_vis c8ctx c8st).hostVis :=
  copy_vis_preserves_device_and_is_idempotent c8ctx c8st
    [⟨3, 0, 0, 0, 0, 0, 0, 0⟩] rfl (by decide)

/-- C2: `apply_beam(J1, J, J2)` replaces `J` with the ordinary 2x2 complex
matrix product `J1 * J * J2^H`, where `J2^H` is the conjugate transpose of
`J2`: interpreted as mathematical complex matrices, each entry of the result
equals the entry of the reference matrix product. -/
theorem toComplex_cadd (a b : Cplx) :
    Cplx.toComplex (cadd a b) = Cplx.toComplex a + Cplx.toComplex b := by
  apply Complex.ext <;> simp [cadd, MAKE_COMPLEX, Cplx.toComplex]

theorem toComplex_cmul (a b : Cplx) :
    Cplx.toComplex (cmul a b) = Cplx.toComplex a * Cplx.toComplex b := by
  apply Complex.ext <;>
    simp [cmul, MAKE_COMPLEX, Cplx.toComplex, Complex.mul_re, Complex.mul_im]

theorem toComplex_cconj (a : Cplx) :
    Cplx.toComplex (cconj a) = (starRingEnd ℂ) (Cplx.toComplex a) := by
  apply Complex.ext <;> simp [cconj, MAKE_COMPLEX, Cplx.toComplex]

theorem Cplx.eta (z : Cplx) : (⟨z.x, z.y⟩ : Cplx) = z := rfl

theorem apply_beam_is_matrix_sandwich (j1 j j2 : Jones) :
    Jones.toMatrix (apply_beam j1 j j2) =
      Jones.toMatrix j1 * Jones.toMatrix j * Matrix.conjTranspose (Jones.toMatrix j2) := by
  ext i k
  fin_cases i <;> fin_cases k <;>
    simp [apply_beam, Jones.toMatrix, jonesToC, cToJones, Cplx.eta, Matrix.mul_apply,
      Fin.sum_univ_two, Matrix.conjTranspose_apply, toComplex_cadd, toComplex_cmul,
      toComplex_cconj]

set_option maxHeartbeats 3000000 in
/-- C3: round-trip.  For every host visibility buffer contents, context
creation (whose last step copies the host buffer to the device) followed
immediately by `copy_vis` (which copies the device buffer back into the host
buffer supplied at creation), with no modelling or clear in between, leaves
the host buffer exactly equal to its original contents, provided the
allocator does not fail during creation. -/
theorem create_then_readback_roundtrip
    (nb nf nt sl sn : Int) (c dx : ℚ) (uvws : List UVW) (freqs sbvs : List ℚ)
    (dfc : Nat) (nfbc nuft nuff : Int) (bjm bnj vp : Nat) (s : ModelState)
    (hfail : s.gpu.failIdx = []) :
    (copy_vis
        (init_model nb nf nt sl sn c dx uvws freqs sbvs dfc nfbc nuft nuff bjm bnj vp s).1
        (init_model nb nf nt sl sn c dx uvws freqs sbvs dfc nfbc nuft nuff bjm bnj vp s).2).hostVis
      = s.hostVis := by
  simp [init_model, copy_vis, cudaMallocSoft, cudaMemcpyHtoDSoft, cudaMemcpyDtoHSoft,
    heapLookup, heapUpdate, hfail, List.take_take, List.take_append_drop]

/-- Host buffer used to witness the round-trip theorem. -/
def c3host : List JonesF32 := [⟨1, 2, 3, 4, 5, 6, 7, 8⟩, ⟨9, 10, 11, 12, 13, 14, 15, 16⟩]

/-- Starting state used to witness the round-trip theorem. -/
def c3st : ModelState := ⟨⟨[], 1, 0, [], []⟩, c3host⟩

theorem create_then_readback_roundtrip_witness :
    (copy_vis (init_model 2 1 1 1 1 0 0 [⟨1, 1, 1⟩, ⟨2, 2, 2⟩] [150000000] [1] 0 0 0 0 0 0 9 c3st).1
        (init_model 2 1 1 1 1 0 0 [⟨1, 1, 1⟩, ⟨2, 2, 2⟩] [150000000] [1] 0 0 0 0 0 0 9 c3st).2).hostVis
      = c3st.hostVis :=
  create_then_readback_roundtrip 2 1 1 1 1 0 0 [⟨1, 1, 1⟩, ⟨2, 2, 2⟩] [150000000] [1]
    0 0 0 0 0 0 9 c3st rfl

/-- Starting state for the partial-failure counterexample: the allocation
oracle fails the second `cudaMalloc` (the frequency buffer). -/
def c1st : ModelState := ⟨⟨[], 1, 0, [1], []⟩, [⟨1, 0, 0, 0, 0, 0, 0, 0⟩]⟩

set_option maxHeartbeats 2000000 in
/-- C1 counterexample: on a creation during which an allocation (and the
subsequent copy) fails, `init_model` does not release the buffers it had
already allocated and does not abort: errors are in the log, yet the UVW
buffer allocated before the failure (device address 1) is still allocated
when `init_model` returns, and the returned context carries the `NULL`
frequency pointer.  This refutes the claim that a partial failure propagates
an error and releases every already-allocated device buffer. -/
theorem init_model_leaks_on_partial_failure :
    ((init_model 1 1 1 1 1 0 0 [⟨1, 2, 3⟩] [4] [5] 0 0 0 0 0 0 9 c1st).2.gpu.log ≠ [])
    ∧ heapLookup (init_model 1 1 1 1 1 0 0 [⟨1, 2, 3⟩] [4] [5] 0 0 0 0 0 0 9 c1st).2.gpu.heap 1
        = some (DevBuf.uvwBuf [⟨1, 2, 3⟩])
    ∧ (init_model 1 1 1 1 1 0 0 [⟨1, 2, 3⟩] [4] [5] 0 0 0 0 0 0 9 c1st).1.d_freqs = 0 := by
  refine ⟨?_, ?_, ?_⟩ <;> decide

set_option maxHeartbeats 2000000 in
/-- C1 amended: `init_model` checks each allocation and copy result with
`cudaSoftCheck`, which only logs a failure and continues; it has no error
return path (it always returns a context), and a buffer present in device
memory when a step runs — including every buffer the call itself allocated
before a failure — is still allocated when `init_model` returns: nothing is
ever released on partial failure, the error log only grows. -/
theorem init_model_releases_nothing
    (nb nf nt sl sn : Int) (c dx : ℚ) (uvws : List UVW) (freqs sbvs : List ℚ)
    (dfc : Nat) (nfbc nuft nuff : Int) (bjm bnj vp : Nat) (s : ModelState) (p : Nat)
    (h : (heapLookup s.gpu.heap p).isSome = true) :
    ((heapLookup
        (init_model nb nf nt sl sn c dx uvws freqs sbvs dfc nfbc nuft nuff bjm bnj vp s).2.gpu.heap
        p).isSome = true)
    ∧ List.IsSuffix s.gpu.log
        (init_model nb nf nt sl sn c dx uvws freqs sbvs dfc nfbc nuft nuff bjm bnj vp s).2.gpu.log := by
  have step : gpuEvolves s.gpu
      (init_model nb nf nt sl sn c dx uvws freqs sbvs dfc nfbc nuft nuff bjm bnj vp s).2.gpu := by
    show gpuEvolves s.gpu
      (cudaMemcpyHtoDSoft
        (cudaMallocSoft
          (cudaMemcpyHtoDSoft
            (cudaMallocSoft
              (cudaMemcpyHtoDSoft
                (cudaMallocSoft
                  (cudaMemcpyHtoDSoft (cudaMallocSoft s.gpu nb.toNat).2
                    (cudaMallocSoft s.gpu nb.toNat).1
                    (DevBuf.uvwBuf (uvws.take nb.toNat)))
                  nf.toNat).2
                (cudaMallocSoft
                  (cudaMemcpyHtoDSoft (cudaMallocSoft s.gpu nb.toNat).2
                    (cudaMallocSoft s.gpu nb.toNat).1
                    (DevBuf.uvwBuf (uvws.take nb.toNat)))
                  nf.toNat).1
                (DevBuf.floatBuf (freqs.take nf.toNat)))
              (sl * sn).toNat).2
            (cudaMallocSoft
              (cudaMemcpyHtoDSoft
                (cudaMallocSoft
                  (cudaMemcpyHtoDSoft (cudaMallocSoft s.gpu nb.toNat).2
                    (cudaMallocSoft s.gpu nb.toNat).1
                    (DevBuf.uvwBuf (uvws.take nb.toNat)))
                  nf.toNat).2
                (cudaMallocSoft
                  (cudaMemcpyHtoDSoft (cudaMallocSoft s.gpu nb.toNat).2
                    (cudaMallocSoft s.gpu nb.toNat).1
                    (DevBuf.uvwBuf (uvws.take nb.toNat)))
                  nf.toNat).1
                (DevBuf.floatBuf (freqs.take nf.toNat)))
              (sl * sn).toNat).1
            (DevBuf.floatBuf (sbvs.take (sl * sn).toNat)))
          (nb * nf).toNat).2
        (cudaMallocSoft
          (cudaMemcpyHtoDSoft
            (cudaMallocSoft
              (cudaMemcpyHtoDSoft
                (cudaMallocSoft
                  (cudaMemcpyHtoDSoft (cudaMallocSoft s.gpu nb.toNat).2
                    (cudaMallocSoft s.gpu nb.toNat).1
                    (DevBuf.uvwBuf (uvws.take nb.toNat)))
                  nf.toNat).2
                (cudaMallocSoft
                  (cudaMemcpyHtoDSoft (cudaMallocSoft s.gpu nb.toNat).2
                    (cudaMallocSoft s.gpu nb.toNat).1
                    (DevBuf.uvwBuf (uvws.take nb.toNat)))
                  nf.toNat).1
                (DevBuf.floatBuf (freqs.take nf.toNat)))
              (sl * sn).toNat).2
            (cudaMallocSoft
              (cudaMemcpyHtoDSoft
                (cudaMallocSoft
                  (cudaMemcpyHtoDSoft (cudaMallocSoft s.gpu nb.toNat).2
                    (cudaMallocSoft s.gpu nb.toNat).1
                    (DevBuf.uvwBuf (uvws.take nb.toNat)))
                  nf.toNat).2
                (cudaMallocSoft
                  (cudaMemcpyHtoDSoft (cudaMallocSoft s.gpu nb.toNat).2
                    (cudaMallocSoft s.gpu nb.toNat).1
                    (DevBuf.uvwBuf (uvws.take nb.toNat)))
                  nf.toNat).1
                (DevBuf.floatBuf (freqs.take nf.toNat)))
              (sl * sn).toNat).1
            (DevBuf.floatBuf (sbvs.take (sl * sn).toNat)))
          (nb * nf).toNat).1
        (DevBuf.visBuf (s.hostVis.take (nb * nf).toNat)))
    exact gpuEvolves_trans (gpuEvolves_malloc _ _)
      (gpuEvolves_trans (gpuEvolves_memcpyHtoD _ _ _)
        (gpuEvolves_trans (gpuEvolves_malloc _ _)
          (gpuEvolves_trans (gpuEvolves_memcpyHtoD _ _ _)
            (gpuEvolves_trans (gpuEvolves_malloc _ _)
              (gpuEvolves_trans (gpuEvolves_memcpyHtoD _ _ _)
                (gpuEvolves_trans (gpuEvolves_malloc _ _)
                  (gpuEvolves_memcpyHtoD _ _ _)))))))
  exact ⟨step.1 p h, step.2⟩

/-- Starting state for the amended-claim witness: one externally allocated
buffer at device address 1, and an allocator that fails every allocation. -/
def c1wst : ModelState := ⟨⟨[(1, DevBuf.raw 1)], 2, 0, [0, 1, 2, 3], []⟩, []⟩

theorem init_model_releases_nothing_witness :
    ((heapLookup (init_model 1 1 1 1 1 0 0 [] [] [] 0 0 0 0 0 0 9 c1wst).2.gpu.heap 1).isSome = true)
    ∧ List.IsSuffix c1wst.gpu.log
        (init_model 1 1 1 1 1 0 0 [] [] [] 0 0 0 0 0 0 9 c1wst).2.gpu.log :=
  init_model_releases_nothing 1 1 1 1 1 0 0 [] [] [] 0 0 0 0 0 0 9 c1wst 1 (by decide)

end Hyperdrive
